import Mathlib

/-!
Verification development for the real-time voice-agent core
(`backend/turn_taking.py`, `backend/robust_stt.py`,
`backend/twilio_integration.py`).

The Python code is shallowly embedded: timestamps (`time.time()` values,
seconds) are rationals, millisecond thresholds are integers, byte strings
are lists of naturals (one byte per element), 16-bit PCM samples are
integers.  Python `Optional[float]` fields become `Option ℚ`, and the
Python truthiness test `if x:` on such a field is modelled as
`some t` with `t ≠ 0` (a `None` and a `0.0` are both falsy).
-/

namespace VoiceAgent

/-- States of the conversation turn-taking state machine
(`TurnState` in `turn_taking.py`). -/
inductive TurnState where
  | IDLE
  | USER_SPEAKING
  | USER_PAUSING
  | PROCESSING
  | AGENT_SPEAKING
  | AGENT_INTERRUPTED
  | HANDOFF_PENDING
deriving DecidableEq, Repr

/-- Context for the current turn state (`TurnContext` in `turn_taking.py`).
Timestamps are rationals (seconds); durations accumulate in seconds. -/
structure TurnContext where
  state : TurnState
  user_speech_start : Option ℚ
  agent_speech_start : Option ℚ
  last_voice_activity : ℚ
  interruption_count : ℕ
  consecutive_silences : ℕ
  current_audio_buffer_size : ℕ
  total_user_speaking_time : ℚ
  total_agent_speaking_time : ℚ
deriving DecidableEq, Repr

/-- Millisecond threshold constants of `TurnTakingController.__init__`. -/
def PAUSE_THRESHOLD_MS : ℤ := 800

def SILENCE_THRESHOLD_MS : ℤ := 1500

def BARGE_IN_THRESHOLD_MS : ℤ := 200

def MIN_SPEECH_DURATION_MS : ℤ := 300

def MAX_INTERRUPTIONS : ℕ := 3

/-- The mutable state of a `TurnTakingController`: its `TurnContext` plus
the adaptive end-of-turn silence threshold (milliseconds). -/
structure TurnTakingController where
  context : TurnContext
  adaptive_silence_threshold : ℤ
deriving DecidableEq, Repr

/-- A freshly constructed `TurnTakingController()` whose `TurnContext`
was created at time `t0` (the `field(default_factory=time.time)` value of
`last_voice_activity`). -/
def initController (t0 : ℚ) : TurnTakingController :=
  { context :=
      { state := TurnState.IDLE
        user_speech_start := none
        agent_speech_start := none
        last_voice_activity := t0
        interruption_count := 0
        consecutive_silences := 0
        current_audio_buffer_size := 0
        total_user_speaking_time := 0
        total_agent_speaking_time := 0 }
    adaptive_silence_threshold := SILENCE_THRESHOLD_MS }

/-- `TurnTakingController.on_voice_detected(rms_energy, audio_chunk_size)`
called at wall-clock time `now`.  Returns the updated controller together
with the Python return value (the current `TurnState`). -/
def on_voice_detected (c : TurnTakingController) (now : ℚ)
    (rms_energy : ℕ) (audio_chunk_size : ℕ) :
    TurnTakingController × TurnState :=
  let ctx0 :=
    { c.context with
        last_voice_activity := now
        consecutive_silences := 0
        current_audio_buffer_size :=
          c.context.current_audio_buffer_size + audio_chunk_size }
  if ctx0.state = TurnState.AGENT_SPEAKING then
    let ctx1 :=
      { ctx0 with
          state := TurnState.AGENT_INTERRUPTED
          interruption_count := ctx0.interruption_count + 1 }
    let ctx2 :=
      match ctx1.agent_speech_start with
      | some t =>
          if t ≠ 0 then
            { ctx1 with
                total_agent_speaking_time :=
                  ctx1.total_agent_speaking_time + (now - t) }
          else ctx1
      | none => ctx1
    ({ c with context := ctx2 }, TurnState.AGENT_INTERRUPTED)
  else if ctx0.state = TurnState.IDLE ∨ ctx0.state = TurnState.USER_PAUSING then
    let ctx1 :=
      if ctx0.state = TurnState.IDLE then
        { ctx0 with
            user_speech_start := some now
            current_audio_buffer_size := audio_chunk_size }
      else ctx0
    let ctx2 := { ctx1 with state := TurnState.USER_SPEAKING }
    ({ c with context := ctx2 }, TurnState.USER_SPEAKING)
  else if ctx0.state = TurnState.PROCESSING then
    let ctx1 := { ctx0 with state := TurnState.USER_SPEAKING }
    ({ c with context := ctx1 }, TurnState.USER_SPEAKING)
  else
    ({ c with context := ctx0 }, ctx0.state)

/-- `TurnTakingController.on_silence_detected(silence_duration_ms)` called
at wall-clock time `now`.  Returns the updated controller together with the
Python return value. -/
def on_silence_detected (c : TurnTakingController) (now : ℚ)
    (silence_duration_ms : ℤ) : TurnTakingController × TurnState :=
  let ctx0 :=
    { c.context with consecutive_silences := c.context.consecutive_silences + 1 }
  if ctx0.state = TurnState.USER_SPEAKING then
    if silence_duration_ms > c.adaptive_silence_threshold then
      let r :=
        match ctx0.user_speech_start with
        | some t =>
            if t ≠ 0 then
              let speaking_time := now - t
              ({ ctx0 with
                   total_user_speaking_time :=
                     ctx0.total_user_speaking_time + speaking_time },
               if speaking_time < 2 then
                 max 1000 (SILENCE_THRESHOLD_MS - 200)
               else SILENCE_THRESHOLD_MS)
            else (ctx0, c.adaptive_silence_threshold)
        | none => (ctx0, c.adaptive_silence_threshold)
      ({ context := { r.1 with state := TurnState.PROCESSING }
         adaptive_silence_threshold := r.2 }, TurnState.PROCESSING)
    else if silence_duration_ms > PAUSE_THRESHOLD_MS then
      ({ c with context := { ctx0 with state := TurnState.USER_PAUSING } },
       TurnState.USER_PAUSING)
    else
      ({ c with context := ctx0 }, ctx0.state)
  else if ctx0.state = TurnState.AGENT_INTERRUPTED then
    if silence_duration_ms > PAUSE_THRESHOLD_MS then
      ({ c with context := { ctx0 with state := TurnState.PROCESSING } },
       TurnState.PROCESSING)
    else
      ({ c with context := ctx0 }, ctx0.state)
  else
    ({ c with context := ctx0 }, ctx0.state)

/-- `TurnTakingController.should_process_audio()`. -/
def should_process_audio (c : TurnTakingController) : Bool :=
  decide (c.context.state = TurnState.PROCESSING)

/-- `TurnTakingController.should_clear_audio_playback()`. -/
def should_clear_audio_playback (c : TurnTakingController) : Bool :=
  decide (c.context.state = TurnState.AGENT_INTERRUPTED)

/-- `TurnTakingController.on_agent_start_speaking()` at time `now`. -/
def on_agent_start_speaking (c : TurnTakingController) (now : ℚ) :
    TurnTakingController :=
  { c with
      context :=
        { c.context with
            state := TurnState.AGENT_SPEAKING
            agent_speech_start := some now } }

/-- `TurnTakingController.on_agent_done_speaking()` at time `now`. -/
def on_agent_done_speaking (c : TurnTakingController) (now : ℚ) :
    TurnTakingController :=
  let ctx0 :=
    match c.context.agent_speech_start with
    | some t =>
        if t ≠ 0 then
          { c.context with
              total_agent_speaking_time :=
                c.context.total_agent_speaking_time + (now - t) }
        else c.context
    | none => c.context
  { c with
      context :=
        { ctx0 with state := TurnState.IDLE, agent_speech_start := none } }

/-- `TurnTakingController.on_processing_complete()`. -/
def on_processing_complete (c : TurnTakingController) : TurnTakingController :=
  { c with
      context :=
        { c.context with
            current_audio_buffer_size := 0
            user_speech_start := none } }

/-- `TurnTakingController.reset_for_new_call()`; the fresh context is
created at time `now`. -/
def reset_for_new_call (c : TurnTakingController) (now : ℚ) :
    TurnTakingController :=
  { (initController now) with
      adaptive_silence_threshold := SILENCE_THRESHOLD_MS }

/-- An externally observable controller event, carrying the wall-clock
time at which the corresponding Python method is invoked. -/
inductive TTEvent where
  | voice (now : ℚ) (rms_energy : ℕ) (audio_chunk_size : ℕ)
  | silence (now : ℚ) (silence_duration_ms : ℤ)
  | agentStart (now : ℚ)
  | agentDone (now : ℚ)
  | processingComplete
  | reset (now : ℚ)

/-- One controller step for an event. -/
def step (c : TurnTakingController) : TTEvent → TurnTakingController
  | TTEvent.voice now r s => (on_voice_detected c now r s).1
  | TTEvent.silence now d => (on_silence_detected c now d).1
  | TTEvent.agentStart now => on_agent_start_speaking c now
  | TTEvent.agentDone now => on_agent_done_speaking c now
  | TTEvent.processingComplete => on_processing_complete c
  | TTEvent.reset now => reset_for_new_call c now

/-- Run a list of events from a fresh controller created at time `t0`. -/
def runEvents (t0 : ℚ) (events : List TTEvent) : TurnTakingController :=
  events.foldl step (initController t0)

/-! ### Audio helpers (`audioop`-based code in `twilio_integration.py`) -/

/-- Decode one µ-law byte to a 16-bit linear PCM sample, exactly as
CPython `audioop.ulaw2lin(_, 2)` does (complement, extract quantisation
and segment fields, bias 0x84, sign from bit 7). -/
def ulaw2lin_sample (u : ℕ) : ℤ :=
  let v := 255 - u % 256
  let t := (v % 16 * 8 + 132) * 2 ^ (v / 16 % 8)
  if 128 ≤ v then 132 - (t : ℤ) else (t : ℤ) - 132

/-- `audioop.ulaw2lin(data, 2)` on a whole byte string, as a sample list. -/
def ulaw2lin (audio_data : List ℕ) : List ℤ :=
  audio_data.map ulaw2lin_sample

/-- `audioop.rms(fragment, 2)` on 16-bit samples: the truncated square
root of the mean of the squared samples (0 for an empty fragment). -/
def rms16 (samples : List ℤ) : ℕ :=
  if samples.length = 0 then 0
  else Nat.sqrt ((samples.map (fun s => (s * s).toNat)).sum / samples.length)

/-- `is_silence(audio_data, threshold)` from `twilio_integration.py`:
frames shorter than 2 bytes are silence; otherwise the µ-law frame is
decoded and its RMS compared with the threshold (default 150).  The
Python `except` branch returning `True` is unreachable here because
`audioop.ulaw2lin` with width 2 accepts every byte string. -/
def is_silence (audio_data : List ℕ) (threshold : ℕ) : Bool :=
  if audio_data.length < 2 then true
  else decide (rms16 (ulaw2lin audio_data) < threshold)

/-- `calculate_audio_energy(audio_data)` from `twilio_integration.py`:
RMS of the decoded µ-law chunk, 0 for inputs shorter than 2 bytes (and
on any decode failure, which cannot occur for width 2). -/
def calculate_audio_energy (audio_data : List ℕ) : ℕ :=
  if audio_data.length < 2 then 0
  else rms16 (ulaw2lin audio_data)

/-! ### Volume normalization (`preprocess_audio`, `robust_stt.py` lines 96-109) -/

/-- CPython `audioop` sample clamp used by `audioop.mul` for width 2:
clip the scaled value into the 16-bit range and take its floor. -/
def fbound16 (d : ℚ) : ℚ :=
  if d > 32767 then 32767 else if d < -32767 then -32768 else d

/-- `audioop.mul(fragment, 2, factor)` on 16-bit samples. -/
def mul16 (samples : List ℤ) (factor : ℚ) : List ℤ :=
  samples.map (fun v => Rat.floor (fbound16 ((v : ℚ) * factor)))

/-- The target RMS of `preprocess_audio` step 3. -/
def target_rms : ℕ := 3000

/-- Step 3 of `preprocess_audio`: if `0 < rms < 3000`, apply gain
`min(3000 / rms, 5.0)` via `audioop.mul`; otherwise leave the buffer
unchanged.  Returns the resulting samples and the gain used (1 when no
gain is applied). -/
def normalize_volume (samples : List ℤ) : List ℤ × ℚ :=
  let r := rms16 samples
  if 0 < r ∧ r < target_rms then
    let gain : ℚ := min ((target_rms : ℚ) / (r : ℚ)) 5
    (mul16 samples gain, gain)
  else (samples, 1)

/-! ### Playback chunk loop (`send_audio_to_twilio`, lines 935-959) -/

/-- The per-chunk send loop of `send_audio_to_twilio`, over the list of
already-split mulaw chunks, with the turn controller state `c` as
observed at each per-chunk check (no intervening events) and the
`websocket_active` flag.  Before sending each chunk the loop re-checks
`should_clear_audio_playback()`; on interruption it calls
`on_agent_done_speaking` at time `now` and returns `False`.  Result:
(chunks actually sent, controller afterwards, Python return value of the
loop: `false` when it bailed out, `true` when every chunk was sent). -/
def send_chunks_loop (c : TurnTakingController) (now : ℚ)
    (websocket_active : Bool) :
    List (List ℕ) → List (List ℕ) × TurnTakingController × Bool
  | [] => ([], c, true)
  | chunk :: rest =>
    if should_clear_audio_playback c || !websocket_active then
      ([], on_agent_done_speaking c now, false)
    else
      let r := send_chunks_loop c now websocket_active rest
      (chunk :: r.1, r.2.1, r.2.2)

/-! ### Media-stream event loop (`media_stream_websocket`) -/

/-- `MIN_AUDIO_BUFFER` from `media_stream_websocket`. -/
def MIN_AUDIO_BUFFER : ℕ := 8000

/-- `MAX_AUDIO_BUFFER` from `media_stream_websocket` ("Maximum 80KB to
prevent memory issues"). -/
def MAX_AUDIO_BUFFER : ℕ := 80000

/-- The per-call mutable state of `media_stream_websocket` that the
`media` event branch touches. -/
structure MediaState where
  audio_buffer : List ℕ
  controller : TurnTakingController
  last_audio_time : ℚ
  is_processing : Bool
deriving Repr

/-- The `media` event branch of `media_stream_websocket`
(lines 1271-1312) for one decoded payload `audio_chunk` arriving at time
`now`: compute the RMS energy, and either (voice) update the turn
controller, extend `audio_buffer` with the chunk unconditionally and
refresh `last_audio_time`, or (silence) report the silence duration to
the controller.  Clearing of `audio_buffer` happens only inside the
separately dispatched `process_audio_and_respond` task, never here. -/
def handle_media_event (st : MediaState) (now : ℚ) (audio_chunk : List ℕ) :
    MediaState :=
  let rms_energy := rms16 (ulaw2lin audio_chunk)
  if ¬ (is_silence audio_chunk 150 = true) then
    { st with
        controller :=
          (on_voice_detected st.controller now rms_energy audio_chunk.length).1
        audio_buffer := st.audio_buffer ++ audio_chunk
        last_audio_time := now }
  else
    let silence_duration_ms : ℤ := Rat.floor ((now - st.last_audio_time) * 1000)
    { st with
        controller := (on_silence_detected st.controller now silence_duration_ms).1 }

/-- Fold the media branch over a list of timed inbound payloads. -/
def run_media (st : MediaState) (events : List (ℚ × List ℕ)) : MediaState :=
  events.foldl (fun s e => handle_media_event s e.1 e.2) st

/-- The media-loop state at websocket accept time (`audio_buffer =
bytearray()`, fresh controller, `is_processing = False`), with both
clocks at `t0`. -/
def initMediaState (t0 : ℚ) : MediaState :=
  { audio_buffer := []
    controller := initController t0
    last_audio_time := t0
    is_processing := false }

/-! ### Robust STT (`robust_stt.py`) -/

/-- Python string whitespace, as stripped by `str.strip()`. -/
def pyIsSpace (c : Char) : Bool :=
  c = ' ' || c = '\t' || c = '\n' || c = '\r' || c = '\x0b' || c = '\x0c'

/-- Python `str.strip()`: drop whitespace from both ends. -/
def pyStrip (s : String) : String :=
  ⟨(((s.data.dropWhile pyIsSpace).reverse).dropWhile pyIsSpace).reverse⟩

/-- Python `str.lower()` (ASCII case mapping, which covers every cased
character occurring in this module). -/
def pyLower (s : String) : String :=
  ⟨s.data.map Char.toLower⟩

/-- `SECTOR_PROMPTS` from `robust_stt.py`. -/
def SECTOR_PROMPTS : List (String × String) :=
  [("banking", "Banking, account, balance, loan, EMI, credit card, debit card, savings, FD, NEFT, RTGS, UPI, ATM, branch, interest rate, cheque, passbook, statement"),
   ("financial", "Investment, mutual fund, SIP, stock, portfolio, returns, NAV, equity, debt fund, tax saving, ELSS, NPS, PPF, demat, trading, cryptocurrency, fintech, UPI"),
   ("insurance", "Insurance, policy, premium, claim, coverage, health insurance, life insurance, term plan, endowment, cashless, hospitalization, nominee, sum assured, maturity"),
   ("bpo", "Support, ticket, complaint, issue, resolution, escalation, refund, order, delivery, tracking, cancellation, subscription, billing, payment"),
   ("healthcare_appt", "Appointment, doctor, consultation, OPD, schedule, reschedule, cancel, timing, availability, specialist, cardiologist, dermatologist, clinic"),
   ("healthcare_patient", "Patient, medical record, prescription, lab report, test result, medication, diagnosis, treatment, health history, vaccination, allergy")]

/-- `COMMON_INDIAN_TERMS` from `robust_stt.py`. -/
def COMMON_INDIAN_TERMS : String :=
  "kya, hai, mera, kaise, chahiye, kitna, karna, karun, batao, loan, account, balance, paisa, rupees, lakh, crore, aadhar, PAN"

/-- `gibberish_patterns` from `is_valid_transcription`. -/
def gibberish_patterns : List String :=
  ["[음악]", "[music]", "(music)", "[inaudible]", "[Musik]", "[Musique]",
   "thank you for watching", "thanks for watching", "subscribe to my channel",
   "please subscribe", "[silence]", "you"]

/-- `is_valid_transcription(transcription)` from `robust_stt.py`: reject
empty input, strings shorter than two characters after strip+lower, and
exact matches of the known artifact patterns; accept everything else. -/
def is_valid_transcription (transcription : String) : Bool :=
  if transcription = "" then false
  else
    let text := pyLower (pyStrip transcription)
    if text.length < 2 then false
    else if gibberish_patterns.any (fun p => text = p || pyStrip text = p) then
      false
    else true

/-- One transcription strategy from the `strategies` list built inside
`transcribe_with_retry`. -/
structure Strategy where
  name : String
  model : String
  temperature : ℚ
  prompt : Option String
  language : Option String
deriving DecidableEq, Repr

/-- The sector prompt `SECTOR_PROMPTS.get(sector, "") + ", " +
COMMON_INDIAN_TERMS` (step 4 of `transcribe_with_retry`). -/
def sector_prompt_for (sector : String) : String :=
  ((SECTOR_PROMPTS.lookup sector).getD "") ++ ", " ++ COMMON_INDIAN_TERMS

/-- Strategy 1: "Primary (Large-V3 + Prompt)". -/
def strategy1 (sector_prompt : String) : Strategy :=
  { name := "Primary (Large-V3 + Prompt)"
    model := "whisper-large-v3"
    temperature := 0
    prompt := some sector_prompt
    language := none }

/-- Strategy 2: "Fallback 1 (No Prompt - Pure Recognition)". -/
def strategy2 : Strategy :=
  { name := "Fallback 1 (No Prompt - Pure Recognition)"
    model := "whisper-large-v3"
    temperature := 0
    prompt := none
    language := none }

/-- Strategy 3: "Fallback 2 (Large-V3 Turbo)". -/
def strategy3 : Strategy :=
  { name := "Fallback 2 (Large-V3 Turbo)"
    model := "whisper-large-v3-turbo"
    temperature := 0
    prompt := none
    language := none }

/-- Strategy 4: "Fallback 3 (English Forced)". -/
def strategy4 : Strategy :=
  { name := "Fallback 3 (English Forced)"
    model := "whisper-large-v3"
    temperature := 0
    prompt := some "English with Indian accent"
    language := some "en" }

/-- The ordered `strategies` list of `transcribe_with_retry`. -/
def strategies_for (sector_prompt : String) : List Strategy :=
  [strategy1 sector_prompt, strategy2, strategy3, strategy4]

/-- Metadata fields of `transcribe_with_retry` relevant to its retry
logic (`attempts` and `model_used`; the timing/quality fields are
diagnostics of the opaque audio path). -/
structure STTMetadata where
  attempts : ℕ
  model_used : Option String
deriving DecidableEq, Repr

/-- The strategy loop of `transcribe_with_retry` (lines 393-436).  The
recognizer call `groq_client.audio.transcriptions.create(...)` on the
fixed audio is abstracted as `recognize : Strategy → Except String
String` (`Except.error` models a raised exception, whose message feeds
`last_error`).  State threaded through the loop: attempts so far,
`model_used`, `last_error`.  Returns `(attempts, transcription,
model_used, last_error)`. -/
def run_strategies (recognize : Strategy → Except String String) :
    List Strategy → ℕ → Option String → Option String →
    ℕ × Option String × Option String × Option String
  | [], attempts, model_used, last_error => (attempts, none, model_used, last_error)
  | s :: rest, attempts, model_used, last_error =>
    match recognize s with
    | Except.error e => run_strategies recognize rest (attempts + 1) model_used (some e)
    | Except.ok result =>
      if 0 < (pyStrip result).length then
        if is_valid_transcription (pyStrip result) then
          (attempts + 1, some (pyStrip result), some s.model, last_error)
        else
          run_strategies recognize rest (attempts + 1) (some s.model) last_error
      else
        run_strategies recognize rest (attempts + 1) model_used last_error

/-- `transcribe_with_retry(audio_bytes, groq_client, sector, max_retries)`
with the audio path abstracted into the recognizer: `none` models a
missing `groq_client` (the Python then returns an empty metadata dict,
rendered here as zero attempts).  Returns `(transcription, error,
metadata)`. -/
def transcribe_with_retry (recognize : Option (Strategy → Except String String))
    (sector : String) (max_retries : ℕ) :
    Option String × Option String × STTMetadata :=
  match recognize with
  | none => (none, some "Groq client not initialized", ⟨0, none⟩)
  | some rec =>
    let r := run_strategies rec
      ((strategies_for (sector_prompt_for sector)).take (max_retries + 1)) 0 none none
    match r.2.1 with
    | some t => (some t, none, ⟨r.1, r.2.2.1⟩)
    | none =>
      (none, some ((r.2.2.2).getD "Transcription failed after all retries"),
       ⟨r.1, r.2.2.1⟩)

/-! ## Claims -/

/-- C1: for every controller in state `AGENT_SPEAKING`, a call to
`on_voice_detected` transitions the state to `AGENT_INTERRUPTED` (both in
the stored context and in the returned value), increments the
interruption count by exactly one, makes `should_clear_audio_playback()`
true immediately afterwards, and the per-chunk check of the playback loop
in `send_audio_to_twilio` then lets no further chunk be sent. -/
theorem C1_voice_interrupts_agent (c : TurnTakingController)
    (now now2 : ℚ) (rms sz : ℕ) (chunks : List (List ℕ))
    (h : c.context.state = TurnState.AGENT_SPEAKING) :
    (on_voice_detected c now rms sz).1.context.state = TurnState.AGENT_INTERRUPTED ∧
    (on_voice_detected c now rms sz).2 = TurnState.AGENT_INTERRUPTED ∧
    (on_voice_detected c now rms sz).1.context.interruption_count =
      c.context.interruption_count + 1 ∧
    should_clear_audio_playback (on_voice_detected c now rms sz).1 = true ∧
    (send_chunks_loop (on_voice_detected c now rms sz).1 now2 true chunks).1 = [] := by
  have key : (on_voice_detected c now rms sz).1.context.state = TurnState.AGENT_INTERRUPTED ∧
      (on_voice_detected c now rms sz).2 = TurnState.AGENT_INTERRUPTED ∧
      (on_voice_detected c now rms sz).1.context.interruption_count =
        c.context.interruption_count + 1 := by
    cases hA : c.context.agent_speech_start with
    | none => simp [on_voice_detected, h, hA]
    | some t =>
      by_cases ht : t = 0 <;> simp [on_voice_detected, h, hA, ht]
  have hclear : should_clear_audio_playback (on_voice_detected c now rms sz).1 = true := by
    simp [should_clear_audio_playback, key.1]
  refine ⟨key.1, key.2.1, key.2.2, hclear, ?_⟩
  cases chunks with
  | nil => rfl
  | cons ch rest => simp [send_chunks_loop, hclear]

/-- C1 witness: a concrete speaking agent interrupted by voice. -/
theorem C1_voice_interrupts_agent_witness :
    (on_agent_start_speaking (initController 0) 5).context.state =
        TurnState.AGENT_SPEAKING ∧
    (on_voice_detected (on_agent_start_speaking (initController 0) 5) 6 900 160).1.context.state =
        TurnState.AGENT_INTERRUPTED ∧
    (on_voice_detected (on_agent_start_speaking (initController 0) 5) 6 900 160).2 =
        TurnState.AGENT_INTERRUPTED ∧
    (on_voice_detected (on_agent_start_speaking (initController 0) 5) 6 900 160).1.context.interruption_count =
        (on_agent_start_speaking (initController 0) 5).context.interruption_count + 1 ∧
    should_clear_audio_playback
        (on_voice_detected (on_agent_start_speaking (initController 0) 5) 6 900 160).1 = true ∧
    (send_chunks_loop
        (on_voice_detected (on_agent_start_speaking (initController 0) 5) 6 900 160).1
        7 true [[1, 2], [3]]).1 = [] :=
  ⟨by decide,
   C1_voice_interrupts_agent (on_agent_start_speaking (initController 0) 5)
     6 7 900 160 [[1, 2], [3]] (by decide)⟩

/-- C9: `is_silence` and `calculate_audio_energy` are total functions of
the raw byte string; every frame shorter than 2 bytes is classified as
silence and has energy 0. -/
theorem C9_short_frame_is_silence (audio_data : List ℕ) (threshold : ℕ)
    (h : audio_data.length < 2) :
    is_silence audio_data threshold = true ∧
    calculate_audio_energy audio_data = 0 := by
  unfold is_silence calculate_audio_energy
  simp [h]

/-- C9 witness: a one-byte frame. -/
theorem C9_short_frame_is_silence_witness :
    ([7] : List ℕ).length < 2 ∧
    (is_silence [7] 150 = true ∧ calculate_audio_energy [7] = 0) :=
  ⟨by decide, C9_short_frame_is_silence [7] 150 (by decide)⟩

/-- C10: `on_agent_start_speaking` sets the state to `AGENT_SPEAKING`
and `on_agent_done_speaking` sets it to `IDLE` from every current state;
in particular `on_agent_done_speaking` from `AGENT_INTERRUPTED` reaches
`IDLE`, after which `should_clear_audio_playback()` is false; and the
playback chunk loop, on detecting the interruption, returns exactly
`on_agent_done_speaking` applied to the controller together with no sent
chunks and a `False` result. -/
theorem C10_agent_transitions_unconditional (c : TurnTakingController) (now : ℚ) :
    (on_agent_start_speaking c now).context.state = TurnState.AGENT_SPEAKING ∧
    (on_agent_done_speaking c now).context.state = TurnState.IDLE ∧
    should_clear_audio_playback (on_agent_done_speaking c now) = false ∧
    (c.context.state = TurnState.AGENT_INTERRUPTED →
      ∀ (chunk : List ℕ) (rest : List (List ℕ)),
        send_chunks_loop c now true (chunk :: rest) =
          ([], on_agent_done_speaking c now, false)) := by
  have hdone : (on_agent_done_speaking c now).context.state = TurnState.IDLE := by
    cases hA : c.context.agent_speech_start with
    | none => simp [on_agent_done_speaking, hA]
    | some t => by_cases ht : t = 0 <;> simp [on_agent_done_speaking, hA, ht]
  refine ⟨by simp [on_agent_start_speaking], hdone,
    by simp [should_clear_audio_playback, hdone], ?_⟩
  intro h chunk rest
  simp [send_chunks_loop, should_clear_audio_playback, h]

/-- C10 witness: a concrete interrupted controller. -/
theorem C10_agent_transitions_unconditional_witness :
    (on_voice_detected (on_agent_start_speaking (initController 0) 5) 6 900 160).1.context.state =
        TurnState.AGENT_INTERRUPTED ∧
    (on_agent_done_speaking
        (on_voice_detected (on_agent_start_speaking (initController 0) 5) 6 900 160).1
        8).context.state = TurnState.IDLE ∧
    should_clear_audio_playback
        (on_agent_done_speaking
          (on_voice_detected (on_agent_start_speaking (initController 0) 5) 6 900 160).1 8) =
        false ∧
    send_chunks_loop
        (on_voice_detected (on_agent_start_speaking (initController 0) 5) 6 900 160).1
        8 true [[1, 2], [3]] =
      ([], on_agent_done_speaking
             (on_voice_detected (on_agent_start_speaking (initController 0) 5) 6 900 160).1 8,
       false) := by
  have h := C10_agent_transitions_unconditional
    (on_voice_detected (on_agent_start_speaking (initController 0) 5) 6 900 160).1 8
  exact ⟨by decide, h.2.1, h.2.2.1, h.2.2.2 (by decide) [1, 2] [[3]]⟩

/-- C4: `is_valid_transcription` returns false exactly when the input is
empty, shorter than two characters after stripping (and lowercasing), or
equal after strip+lower to one of the known recognizer-artifact phrases
(directly or after a second strip); in particular `"[music]"` is rejected
and `"no"` is accepted. -/
theorem C4_validation_characterization (s : String) :
    (is_valid_transcription s = false ↔
      s = "" ∨ (pyLower (pyStrip s)).length < 2 ∨
        ∃ p ∈ gibberish_patterns,
          pyLower (pyStrip s) = p ∨ pyStrip (pyLower (pyStrip s)) = p) ∧
    is_valid_transcription "[music]" = false ∧
    is_valid_transcription "no" = true := by
  refine ⟨?_, by decide, by decide⟩
  by_cases h1 : s = ""
  · simp [is_valid_transcription, h1]
  · by_cases h2 : (pyLower (pyStrip s)).length < 2
    · simp [is_valid_transcription, h1, h2]
    · by_cases h3 : ∃ p ∈ gibberish_patterns,
          pyLower (pyStrip s) = p ∨ pyStrip (pyLower (pyStrip s)) = p
      · simp [is_valid_transcription, h1, h2, List.any_eq_true, h3]
      · simp [is_valid_transcription, h1, h2, List.any_eq_true, h3]

/-- C3: the transcription attempt list is exactly, in order, (1) best
model with domain prompt and auto language, (2) best model with no
prompt, (3) turbo model with no prompt, (4) best model with accent hint
and forced English; a recognizer stub failing on attempts 1 and 2 and
returning "yes" on attempt 3 makes `transcribe_with_retry` return "yes"
with no error and 3 recorded attempts. -/
theorem C3_ordered_fallback (sector : String)
    (recognize : Strategy → Except String String) (e1 e2 : String)
    (h1 : recognize (strategy1 (sector_prompt_for sector)) = Except.error e1)
    (h2 : recognize strategy2 = Except.error e2)
    (h3 : recognize strategy3 = Except.ok "yes") :
    strategies_for (sector_prompt_for sector) =
      [strategy1 (sector_prompt_for sector), strategy2, strategy3, strategy4] ∧
    transcribe_with_retry (some recognize) sector 3 =
      (some "yes", none, ⟨3, some "whisper-large-v3-turbo"⟩) := by
  refine ⟨rfl, ?_⟩
  have hy : pyStrip "yes" = "yes" := by decide
  have hv : is_valid_transcription "yes" = true := by decide
  have hlen : 0 < ("yes").length := by decide
  have hmodel : strategy3.model = "whisper-large-v3-turbo" := rfl
  unfold transcribe_with_retry
  simp [strategies_for, run_strategies, h1, h2, h3, hy, hv, hlen, hmodel]

/-- A stub recognizer failing on every strategy except the turbo one. -/
def stubRecognizer : Strategy → Except String String :=
  fun s => if s = strategy3 then Except.ok "yes" else Except.error "boom"

/-- C3 witness: the stub recognizer on the banking sector. -/
theorem C3_ordered_fallback_witness :
    stubRecognizer (strategy1 (sector_prompt_for "banking")) = Except.error "boom" ∧
    stubRecognizer strategy2 = Except.error "boom" ∧
    stubRecognizer strategy3 = Except.ok "yes" ∧
    transcribe_with_retry (some stubRecognizer) "banking" 3 =
      (some "yes", none, ⟨3, some "whisper-large-v3-turbo"⟩) :=
  ⟨rfl, rfl, rfl,
   (C3_ordered_fallback "banking" stubRecognizer "boom" "boom" rfl rfl rfl).2⟩

/-- The adaptive end-of-turn threshold only ever holds one of its two
reachable values, 1300 ms or 1500 ms. -/
def threshold_ok (c : TurnTakingController) : Prop :=
  c.adaptive_silence_threshold = 1300 ∨ c.adaptive_silence_threshold = 1500

lemma on_voice_adaptive (c : TurnTakingController) (now : ℚ) (r s : ℕ) :
    (on_voice_detected c now r s).1.adaptive_silence_threshold =
      c.adaptive_silence_threshold := by
  cases hA : c.context.agent_speech_start with
  | none => cases hs : c.context.state <;> simp [on_voice_detected, hs, hA]
  | some t =>
    by_cases ht : t = 0 <;> cases hs : c.context.state <;>
      simp [on_voice_detected, hs, hA, ht]

lemma on_silence_threshold_ok (c : TurnTakingController) (now : ℚ) (d : ℤ)
    (h : threshold_ok c) : threshold_ok (on_silence_detected c now d).1 := by
  have hmax : max (1000 : ℤ) (SILENCE_THRESHOLD_MS - 200) = 1300 := by decide
  unfold threshold_ok at *
  by_cases h1 : c.context.state = TurnState.USER_SPEAKING
  · by_cases h2 : d > c.adaptive_silence_threshold
    · cases hA : c.context.user_speech_start with
      | none => simpa [on_silence_detected, h1, h2, hA] using h
      | some t =>
        by_cases ht : t = 0
        · simpa [on_silence_detected, h1, h2, hA, ht] using h
        · by_cases hlt : now - t < 2 <;>
            simp [on_silence_detected, h1, h2, hA, ht, hlt, hmax,
              SILENCE_THRESHOLD_MS]
    · by_cases h3 : d > PAUSE_THRESHOLD_MS <;>
        simpa [on_silence_detected, h1, h2, h3] using h
  · by_cases h4 : c.context.state = TurnState.AGENT_INTERRUPTED
    · by_cases h5 : d > PAUSE_THRESHOLD_MS <;>
        simpa [on_silence_detected, h1, h4, h5] using h
    · simpa [on_silence_detected, h1, h4] using h

lemma step_threshold_ok (c : TurnTakingController) (e : TTEvent)
    (h : threshold_ok c) : threshold_ok (step c e) := by
  cases e with
  | voice now r s =>
    unfold threshold_ok at *
    rw [step, on_voice_adaptive]
    exact h
  | silence now d => exact on_silence_threshold_ok c now d h
  | agentStart now => simpa [step, on_agent_start_speaking, threshold_ok] using h
  | agentDone now =>
    unfold threshold_ok at *
    cases hA : c.context.agent_speech_start with
    | none => simpa [step, on_agent_done_speaking, hA] using h
    | some t =>
      by_cases ht : t = 0 <;>
        simpa [step, on_agent_done_speaking, hA, ht] using h
  | processingComplete => simpa [step, on_processing_complete, threshold_ok] using h
  | reset now =>
    simp [step, reset_for_new_call, threshold_ok, initController, SILENCE_THRESHOLD_MS]

lemma foldl_threshold_ok (events : List TTEvent) :
    ∀ c : TurnTakingController, threshold_ok c → threshold_ok (events.foldl step c) := by
  induction events with
  | nil => intro c h; exact h
  | cons e rest ih =>
    intro c h
    exact ih (step c e) (step_threshold_ok c e h)

lemma runEvents_threshold_ok (t0 : ℚ) (events : List TTEvent) :
    threshold_ok (runEvents t0 events) := by
  refine foldl_threshold_ok events (initController t0) ?_
  right
  rfl

/-- C6: a silence event strictly longer than the current adaptive
end-of-turn threshold while `USER_SPEAKING` (with a recorded, truthy
speech-start time `t`) transitions to `PROCESSING`, adds the speaking
time `now - t` to the cumulative counter, and adapts the threshold to
1300 ms for short turns (under 2 s) and back to 1500 ms otherwise; and
after any sequence of events from a fresh controller the adaptive
threshold lies within the configured bounds 1000 ms to 1500 ms. -/
theorem C6_end_of_turn_adaptation (c : TurnTakingController) (now t : ℚ) (d : ℤ)
    (hs : c.context.state = TurnState.USER_SPEAKING)
    (hstart : c.context.user_speech_start = some t)
    (ht : t ≠ 0)
    (hd : d > c.adaptive_silence_threshold) :
    (on_silence_detected c now d).1.context.state = TurnState.PROCESSING ∧
    (on_silence_detected c now d).2 = TurnState.PROCESSING ∧
    (on_silence_detected c now d).1.context.total_user_speaking_time =
      c.context.total_user_speaking_time + (now - t) ∧
    (on_silence_detected c now d).1.adaptive_silence_threshold =
      (if now - t < 2 then 1300 else 1500) ∧
    (∀ (t0 : ℚ) (events : List TTEvent),
      1000 ≤ (runEvents t0 events).adaptive_silence_threshold ∧
      (runEvents t0 events).adaptive_silence_threshold ≤ 1500) := by
  have hmax : max (1000 : ℤ) (SILENCE_THRESHOLD_MS - 200) = 1300 := by decide
  have hthr : SILENCE_THRESHOLD_MS = (1500 : ℤ) := rfl
  refine ⟨?_, ?_, ?_, ?_, ?_⟩
  · simp [on_silence_detected, hs, hstart, ht, hd]
  · simp [on_silence_detected, hs, hstart, ht, hd]
  · simp [on_silence_detected, hs, hstart, ht, hd]
  · by_cases hlt : now - t < 2 <;>
      simp [on_silence_detected, hs, hstart, ht, hd, hlt, hmax, hthr]
  · intro t0 events
    rcases runEvents_threshold_ok t0 events with h | h <;> rw [h] <;> constructor <;> decide

/-- C6 witness: a user turn started at time 10 ends with a 1600 ms
silence at time 11. -/
theorem C6_end_of_turn_adaptation_witness :
    (on_silence_detected ((on_voice_detected (initController 0) 10 500 100).1) 11 1600).1.context.state =
        TurnState.PROCESSING ∧
    (on_silence_detected ((on_voice_detected (initController 0) 10 500 100).1) 11 1600).1.adaptive_silence_threshold =
        (if (11 : ℚ) - 10 < 2 then 1300 else 1500) ∧
    1000 ≤ (runEvents 0 []).adaptive_silence_threshold := by
  have h := C6_end_of_turn_adaptation ((on_voice_detected (initController 0) 10 500 100).1)
    11 10 1600 (by decide) (by decide) (by decide) (by decide)
  exact ⟨h.1, h.2.2.2.1, (h.2.2.2.2 0 []).1⟩

/-- A voice/silence controller call as the replay claim sees it: the
method and its explicit Python arguments. -/
inductive TTCall where
  | voice (rms_energy : ℕ) (audio_chunk_size : ℕ)
  | silence (silence_duration_ms : ℤ)
deriving DecidableEq, Repr

/-- Apply a timed voice/silence call (the rational is the wall-clock
`time.time()` at the moment of the call). -/
def applyTimedCall (c : TurnTakingController) (tc : ℚ × TTCall) :
    TurnTakingController :=
  match tc.2 with
  | TTCall.voice r s => (on_voice_detected c tc.1 r s).1
  | TTCall.silence d => (on_silence_detected c tc.1 d).1

/-- Run timed calls from a fresh controller created at time `t0`. -/
def runCalls (t0 : ℚ) (calls : List (ℚ × TTCall)) : TurnTakingController :=
  calls.foldl applyTimedCall (initController t0)

/-- A replay whose second event arrives 1 s after speech start. -/
def seqFastTalk : List (ℚ × TTCall) :=
  [(10, TTCall.voice 500 100), (11, TTCall.silence 1600),
   (12, TTCall.voice 500 100), (13, TTCall.silence 1400)]

/-- The same call arguments, but with the second event 3 s after speech
start. -/
def seqSlowTalk : List (ℚ × TTCall) :=
  [(10, TTCall.voice 500 100), (13, TTCall.silence 1600),
   (14, TTCall.voice 500 100), (15, TTCall.silence 1400)]

/-- C7 counterexample: two runs from the initial state receiving the
same `on_voice_detected`/`on_silence_detected` calls with identical
arguments end in different final states (`PROCESSING` vs
`USER_PAUSING`), because the adaptive threshold depends on the wall
clock read inside `on_silence_detected`, which is not an argument. -/
theorem C7_replay_counterexample :
    seqFastTalk.map Prod.snd = seqSlowTalk.map Prod.snd ∧
    (runCalls 0 seqFastTalk).context.state = TurnState.PROCESSING ∧
    (runCalls 0 seqSlowTalk).context.state = TurnState.USER_PAUSING ∧
    (runCalls 0 seqFastTalk).context.state ≠ (runCalls 0 seqSlowTalk).context.state := by
  have h10 : ((10 : ℚ) = 0) = False := by norm_num
  have h112 : ((11 : ℚ) - 10 < 2) = True := by norm_num
  have h132 : ((13 : ℚ) - 10 < 2) = False := by norm_num
  have hA : (runCalls 0 seqFastTalk).context.state = TurnState.PROCESSING := by
    simp [runCalls, seqFastTalk, applyTimedCall, on_voice_detected,
      on_silence_detected, initController, SILENCE_THRESHOLD_MS,
      PAUSE_THRESHOLD_MS, h10, h112, h132]
  have hB : (runCalls 0 seqSlowTalk).context.state = TurnState.USER_PAUSING := by
    simp [runCalls, seqSlowTalk, applyTimedCall, on_voice_detected,
      on_silence_detected, initController, SILENCE_THRESHOLD_MS,
      PAUSE_THRESHOLD_MS, h10, h112, h132]
  refine ⟨rfl, hA, hB, ?_⟩
  rw [hA, hB]
  decide

/-- C7 (amended): the turn-taking controller is a pure function of its
event sequence including the observation times: two controllers starting
from the same initial state that receive the same timed call sequence
end in the same final state (indeed the same full controller state). -/
theorem C7_amended_replay_determinism (t0 : ℚ) (calls : List (ℚ × TTCall))
    (c1 c2 : TurnTakingController)
    (h1 : c1 = initController t0) (h2 : c2 = initController t0) :
    calls.foldl applyTimedCall c1 = calls.foldl applyTimedCall c2 ∧
    (calls.foldl applyTimedCall c1).context.state =
      (calls.foldl applyTimedCall c2).context.state := by
  subst h1
  subst h2
  exact ⟨rfl, rfl⟩

/-- C7 witness: determinism at a concrete timed sequence. -/
theorem C7_amended_replay_determinism_witness :
    seqFastTalk.foldl applyTimedCall (initController 0) =
      seqFastTalk.foldl applyTimedCall (initController 0) :=
  (C7_amended_replay_determinism 0 seqFastTalk (initController 0)
    (initController 0) rfl rfl).1

/-- C8 counterexample: `on_silence_detected` in `IDLE` leaves the state
unchanged, but it increments `consecutive_silences` (a context field
other than the last-activity timestamp) and does not refresh
`last_voice_activity` at all. -/
theorem C8_noop_counterexample :
    (on_silence_detected (initController 10) 11 100).1.context.state = TurnState.IDLE ∧
    (initController 10).context.consecutive_silences = 0 ∧
    (on_silence_detected (initController 10) 11 100).1.context.consecutive_silences = 1 ∧
    (on_silence_detected (initController 10) 11 100).1.context.last_voice_activity =
      (initController 10).context.last_voice_activity := by
  refine ⟨?_, ?_, ?_, ?_⟩ <;> decide

/-- C8 (amended): events matching no transition for the current state
never fail and leave the `TurnState` unchanged, but they are not pure
timestamp refreshes: an unmatched `on_voice_detected` sets the
last-activity timestamp, zeroes `consecutive_silences` and adds the
chunk size to the buffer-size counter, while an unmatched
`on_silence_detected` only increments `consecutive_silences` (leaving
the last-activity timestamp untouched); every other field is
unchanged. -/
theorem C8_unmatched_events_frame (c : TurnTakingController) (now : ℚ)
    (rms sz : ℕ) (d : ℤ) :
    ((c.context.state = TurnState.USER_SPEAKING ∨
      c.context.state = TurnState.AGENT_INTERRUPTED ∨
      c.context.state = TurnState.HANDOFF_PENDING) →
      (on_voice_detected c now rms sz).1 =
        { c with context :=
            { c.context with
                last_voice_activity := now
                consecutive_silences := 0
                current_audio_buffer_size :=
                  c.context.current_audio_buffer_size + sz } }) ∧
    ((c.context.state = TurnState.IDLE ∨
      c.context.state = TurnState.USER_PAUSING ∨
      c.context.state = TurnState.PROCESSING ∨
      c.context.state = TurnState.AGENT_SPEAKING ∨
      c.context.state = TurnState.HANDOFF_PENDING) →
      (on_silence_detected c now d).1 =
        { c with context :=
            { c.context with
                consecutive_silences := c.context.consecutive_silences + 1 } }) := by
  constructor
  · intro h
    rcases h with h | h | h <;> simp [on_voice_detected, h]
  · intro h
    rcases h with h | h | h | h | h <;> simp [on_silence_detected, h]

/-- C8 witness: an unmatched silence event in `IDLE`. -/
theorem C8_unmatched_events_frame_witness :
    (on_silence_detected (initController 10) 11 100).1 =
      { initController 10 with context :=
          { (initController 10).context with
              consecutive_silences :=
                (initController 10).context.consecutive_silences + 1 } } :=
  (C8_unmatched_events_frame (initController 10) 11 300 50 100).2 (Or.inl (by decide))

/-! ### C2: the utterance-buffer bound -/

/-- A 2000-byte µ-law frame of byte 0x00 (each byte decodes to sample
-32124, so the frame RMS is 32124): classified as voice. -/
def loud_frame : List ℕ := List.replicate 2000 0

lemma rms16_replicate (s : ℤ) (n : ℕ) (hn : n ≠ 0) :
    rms16 (List.replicate n s) = Nat.sqrt (s * s).toNat := by
  unfold rms16
  rw [List.map_replicate, List.sum_replicate, List.length_replicate]
  simp only [smul_eq_mul, hn, if_false]
  rw [Nat.mul_div_cancel_left _ (Nat.pos_of_ne_zero hn)]

lemma loud_frame_length : loud_frame.length = 2000 := by
  unfold loud_frame
  rw [List.length_replicate]

lemma loud_frame_not_silence : is_silence loud_frame 150 = false := by
  have hr : rms16 (ulaw2lin loud_frame) = 32124 := by
    unfold ulaw2lin loud_frame
    rw [List.map_replicate]
    rw [show ulaw2lin_sample 0 = -32124 from by decide]
    rw [rms16_replicate _ _ (by norm_num)]
    rw [show ((-32124 : ℤ) * -32124).toNat = 32124 * 32124 from by decide]
    exact Nat.sqrt_eq 32124
  unfold is_silence
  rw [hr, loud_frame_length]
  norm_num

lemma handle_media_voice_buffer (st : MediaState) (now : ℚ) (chunk : List ℕ)
    (h : is_silence chunk 150 = false) :
    (handle_media_event st now chunk).audio_buffer = st.audio_buffer ++ chunk := by
  simp [handle_media_event, h]

lemma run_media_loud_buffer (n : ℕ) :
    ∀ st : MediaState,
      (run_media st (List.replicate n ((0 : ℚ), loud_frame))).audio_buffer.length =
        st.audio_buffer.length + n * 2000 := by
  induction n with
  | zero => intro st; simp [run_media]
  | succ k ih =>
    intro st
    rw [List.replicate_succ]
    unfold run_media at ih ⊢
    rw [List.foldl_cons, ih]
    rw [handle_media_voice_buffer _ _ _ loud_frame_not_silence]
    rw [List.length_append, loud_frame_length]
    ring

/-- C2 (code bug): `MAX_AUDIO_BUFFER` is defined but never consulted by
`media_stream_websocket`; the `media` branch extends the buffer
unconditionally on every voice frame, so 41 consecutive loud 2000-byte
frames grow the utterance buffer to 82,000 bytes, strictly above the
configured 80,000-byte maximum, and no flush occurs. -/
theorem C2_buffer_bound_violated :
    (run_media (initMediaState 0)
        (List.replicate 41 ((0 : ℚ), loud_frame))).audio_buffer.length = 82000 ∧
    MAX_AUDIO_BUFFER <
      (run_media (initMediaState 0)
        (List.replicate 41 ((0 : ℚ), loud_frame))).audio_buffer.length := by
  have h := run_media_loud_buffer 41 (initMediaState 0)
  rw [show (initMediaState 0).audio_buffer.length = 0 from rfl] at h
  norm_num at h
  refine ⟨h, ?_⟩
  rw [h]
  decide

/-! ### C5: gain normalization -/

lemma rms16_pair (s : ℤ) : rms16 [s, s] = Nat.sqrt (s * s).toNat := by
  rw [show ([s, s] : List ℤ) = List.replicate 2 s from rfl,
    rms16_replicate _ _ (by norm_num)]

lemma rms16_500 : rms16 [(500 : ℤ), 500] = 500 := by
  rw [rms16_pair]
  rw [show ((500 : ℤ) * 500).toNat = 500 * 500 from by decide]
  exact Nat.sqrt_eq 500

lemma rms16_2500 : rms16 [(2500 : ℤ), 2500] = 2500 := by
  rw [rms16_pair]
  rw [show ((2500 : ℤ) * 2500).toNat = 2500 * 2500 from by decide]
  exact Nat.sqrt_eq 2500

lemma normalize_500 : normalize_volume [(500 : ℤ), 500] = ([2500, 2500], 5) := by
  have hm : mul16 [(500 : ℤ), 500] 5 = [2500, 2500] := by
    unfold mul16 fbound16
    norm_num
    decide
  have hg : min ((target_rms : ℚ) / ((500 : ℕ) : ℚ)) 5 = 5 := by
    norm_num [target_rms]
  simp only [normalize_volume, rms16_500]
  rw [if_pos (by constructor <;> decide)]
  rw [hg, hm]

/-- C5 counterexample: a 16-bit PCM buffer with RMS exactly 500 is
scaled by the capped gain 5 to RMS 2500, which is outside the ±10% band
[2700, 3300] around the target RMS 3000 that the claim demands. -/
theorem C5_rms500_counterexample :
    rms16 [(500 : ℤ), 500] = 500 ∧
    rms16 (normalize_volume [(500 : ℤ), 500]).1 = 2500 ∧
    ¬ (2700 ≤ rms16 (normalize_volume [(500 : ℤ), 500]).1 ∧
       rms16 (normalize_volume [(500 : ℤ), 500]).1 ≤ 3300) := by
  have h1 : rms16 (normalize_volume [(500 : ℤ), 500]).1 = 2500 := by
    rw [normalize_500]
    exact rms16_2500
  refine ⟨rms16_500, h1, ?_⟩
  rw [h1]
  decide

/-- C5 (amended): gain is applied only when `0 < rms < 3000`, the gain
factor never exceeds 5, and for a 16-bit PCM buffer with RMS 500 the
gain is exactly the 5× cap, so the resulting RMS is 2500 (5× the input),
not ≈3000 ± 10%. -/
theorem C5_gain_capped_only_when_quiet (samples : List ℤ) :
    (normalize_volume samples).2 ≤ 5 ∧
    ((rms16 samples = 0 ∨ target_rms ≤ rms16 samples) →
      normalize_volume samples = (samples, 1)) ∧
    rms16 [(500 : ℤ), 500] = 500 ∧
    normalize_volume [(500 : ℤ), 500] = ([2500, 2500], 5) ∧
    rms16 (normalize_volume [(500 : ℤ), 500]).1 = 2500 := by
  refine ⟨?_, ?_, rms16_500, normalize_500, ?_⟩
  · simp only [normalize_volume]
    split_ifs with h
    · exact min_le_right _ _
    · norm_num
  · intro h
    have hneg : ¬ (0 < rms16 samples ∧ rms16 samples < target_rms) := by
      rcases h with h | h
      · simp [h]
      · intro hc
        exact absurd hc.2 (not_lt.mpr h)
    simp only [normalize_volume]
    rw [if_neg hneg]
  · rw [normalize_500]
    exact rms16_2500

/-- C5 witness: the empty buffer has RMS 0 and is left unchanged. -/
theorem C5_gain_capped_only_when_quiet_witness :
    (normalize_volume ([] : List ℤ)).2 ≤ 5 ∧
    (rms16 ([] : List ℤ) = 0 ∨ target_rms ≤ rms16 ([] : List ℤ)) ∧
    normalize_volume ([] : List ℤ) = ([], 1) :=
  ⟨(C5_gain_capped_only_when_quiet []).1, Or.inl rfl,
   (C5_gain_capped_only_when_quiet []).2.1 (Or.inl rfl)⟩

end VoiceAgent
